import Mathlib

/-!
Verification development for the cbums coin-ledger / session-tracker.

The definitions below are a shallow embedding of the API route handlers:

* `transferCoins`          — app/api/coins/transfer/route.ts (POST handler)
* `allocateCoins`          — app/api/companies/[id]/employees/route.ts (POST handler)
* `createSessionJson`      — the JSON createSession POST handler (src/unnamed/part_000)
* `createSessionMultipart` — app/api/sessions/route.ts (POST, multipart variant)
* `createAccount`          — the user-creation POST handler (src/unnamed/part_001)
* `listSessionsEmployee`   — app/api/sessions/route.ts (GET handler, restricted to
                             EMPLOYEE-role actors, which is the only part the claims need)

The relational store is a record of lists (one per Prisma model); each handler is a
function from the store and the request to an outcome together with the new store.
Row ids are `Nat`, coin balances are `Int` (the Prisma column is `Int`).
Timestamps, bcrypt hashing and row ids of freshly inserted audit/transaction rows
are external concerns and are modelled by opaque-but-executable stand-ins
(`hashPassword`, `createdAt := 0`); no claim depends on their values.

`addActivityLog` (lib/activity-logger) and `withAuth` (lib/auth) are not part of the
sources; their effect is modelled from the spec where noted.
-/

namespace Cbums

/-- prisma/enums.ts `UserRole`. -/
inductive UserRole
  | SUPERADMIN
  | ADMIN
  | COMPANY
  | EMPLOYEE
deriving DecidableEq, Repr

/-- prisma/enums.ts `EmployeeSubrole`. -/
inductive EmployeeSubrole
  | OPERATOR
  | DRIVER
  | TRANSPORTER
  | GUARD
deriving DecidableEq, Repr

/-- prisma/enums.ts `SessionStatus`. -/
inductive SessionStatus
  | PENDING
  | IN_PROGRESS
  | COMPLETED
deriving DecidableEq, Repr

/-- prisma/enums.ts `TransactionReason`. -/
inductive TransactionReason
  | SESSION_START
  | COIN_ALLOCATION
  | MANUAL_TOPUP
  | ADMIN_TRANSFER
  | EMPLOYEE_TRANSFER
deriving DecidableEq, Repr

/-- prisma/enums.ts `ActivityAction`. -/
inductive ActivityAction
  | CREATE
  | UPDATE
  | DELETE
  | LOGIN
  | LOGOUT
  | TRANSFER
  | ALLOCATE
  | VIEW
deriving DecidableEq, Repr

/-- prisma `User` model (timestamps omitted; no claim depends on them). -/
structure User where
  id : Nat
  name : String
  email : String
  password : String
  role : UserRole
  subrole : Option EmployeeSubrole
  companyId : Option Nat
  coins : Int
  createdById : Option Nat
deriving DecidableEq, Repr

/-- prisma `Company` model (address/phone omitted; no claim depends on them). -/
structure Company where
  id : Nat
  name : String
  email : String
deriving DecidableEq, Repr

/-- prisma `CoinTransaction` model (row id and timestamp omitted). -/
structure CoinTransaction where
  fromUserId : Nat
  toUserId : Nat
  amount : Int
  reason : Option TransactionReason
  reasonText : Option String
deriving DecidableEq, Repr

/-- prisma `Session` model (`createdAt` kept as an abstract tick for ordering). -/
structure Session where
  id : Nat
  createdAt : Nat
  createdById : Nat
  companyId : Nat
  source : String
  destination : String
  status : SessionStatus
deriving DecidableEq, Repr

/-- prisma `Seal` model (`scannedAt` omitted). -/
structure Seal where
  sessionId : Nat
  barcode : String
  verified : Bool
  verifiedById : Option Nat
deriving DecidableEq, Repr

/-- prisma `ActivityLog` model (row id, ip/user-agent, timestamp omitted;
`details` payloads are opaque to every claim and are not modelled). -/
structure ActivityLog where
  userId : Nat
  action : ActivityAction
  targetUserId : Option Nat
  targetResourceId : Option Nat
  targetResourceType : Option String
deriving DecidableEq, Repr

/-- The relational store: one list per Prisma model. -/
structure DB where
  users : List User
  companies : List Company
  coinTransactions : List CoinTransaction
  sessions : List Session
  seals : List Seal
  activityLogs : List ActivityLog
deriving DecidableEq, Repr

/-- Model of `prisma.user.findUnique({ where: { id } })`: first user with the given id. -/
def findUser (us : List User) (uid : Nat) : Option User :=
  us.find? (fun u => u.id == uid)

/-- Model of `prisma.user.update({ where: { id }, data: { coins: ... } })`:
adjust the coins of the (unique) user with the given id.  `id` is the primary key,
so updating the first match is the row update. -/
def updateUserCoins : List User → Nat → Int → List User
  | [], _, _ => []
  | u :: rest, uid, delta =>
    if u.id = uid then { u with coins := u.coins + delta } :: rest
    else u :: updateUserCoins rest uid delta

/-- Sum of all coin balances in the store. -/
def sumCoins (us : List User) : Int :=
  (us.map (fun u => u.coins)).sum

/-- The coin balance of the account with the given id, when it exists. -/
def balanceOf (db : DB) (uid : Nat) : Option Int :=
  (findUser db.users uid).map (fun u => u.coins)

/-- Every account balance in the store is non-negative. -/
def nonNegCoins (db : DB) : Prop :=
  ∀ u ∈ db.users, 0 ≤ u.coins

instance (db : DB) : Decidable (nonNegCoins db) := by
  unfold nonNegCoins; infer_instance

/-- Stand-in for bcrypt `hash(password, 12)` (external library). -/
def hashPassword (p : String) : String :=
  "bcrypt$" ++ p

/-! ### transferCoins — app/api/coins/transfer/route.ts (POST) -/

/-- Request body of POST /api/coins/transfer; `fromUserId` is `session.user.id`. -/
structure TransferReq where
  fromUserId : Nat
  toUserId : Nat
  amount : Int
  reason : Option TransactionReason
  notes : Option String
deriving DecidableEq, Repr

/-- HTTP outcomes of the transfer handler, in source order. -/
inductive TransferOutcome
  | invalidAmount      -- 400 "Valid amount is required"
  | missingReason      -- 400 "Reason is required"
  | selfTransfer       -- 400 "Cannot transfer coins to yourself"
  | recipientNotFound  -- 404 "Recipient not found"
  | senderNotFound     -- 404 "Sender not found"
  | insufficientCoins  -- 400 "Insufficient coins"
  | auditFailed        -- 500: addActivityLog threw after the $transaction committed
  | ok                 -- 200
deriving DecidableEq, Repr

/-- Model of `addActivityLog`: append one row to activity_logs (lib/activity-logger is
not among the sources; modelled from the spec — `record` appends one
ActivityLogEntry). -/
def appendLog (db : DB) (log : ActivityLog) : DB :=
  { db with activityLogs := db.activityLogs ++ [log] }

/-- The transfer handler's `$transaction`: decrement sender, increment
recipient, insert one CoinTransaction. -/
def transferCommit (db : DB) (req : TransferReq) (reason : TransactionReason) : DB :=
  { db with
      users := updateUserCoins (updateUserCoins db.users req.fromUserId (-req.amount))
                 req.toUserId req.amount,
      coinTransactions := db.coinTransactions ++
        [{ fromUserId := req.fromUserId, toUserId := req.toUserId,
           amount := req.amount, reason := some reason, reasonText := req.notes }] }

/-- The transfer handler's `addActivityLog` payload (action TRANSFER). -/
def transferLog (req : TransferReq) : ActivityLog :=
  { userId := req.fromUserId, action := .TRANSFER,
    targetUserId := some req.toUserId, targetResourceId := none,
    targetResourceType := some "COIN_TRANSACTION" }

/-- POST /api/coins/transfer.  Checks run in the handler's order; the balance
updates and the CoinTransaction insert are one `$transaction`
(`transferCommit`); `addActivityLog` is awaited only after that transaction has
committed, so a failing audit write (`auditFails = true`) leaves the committed
transfer in place with no log row. -/
def transferCoins (db : DB) (req : TransferReq) (auditFails : Bool) :
    TransferOutcome × DB :=
  if req.amount ≤ 0 then (.invalidAmount, db)
  else
    match req.reason with
    | none => (.missingReason, db)
    | some reason =>
      if req.fromUserId = req.toUserId then (.selfTransfer, db)
      else
        match findUser db.users req.toUserId with
        | none => (.recipientNotFound, db)
        | some _ =>
          match findUser db.users req.fromUserId with
          | none => (.senderNotFound, db)
          | some sender =>
            if sender.coins < req.amount then (.insufficientCoins, db)
            else if auditFails then (.auditFailed, transferCommit db req reason)
            else (.ok, appendLog (transferCommit db req reason) (transferLog req))

/-! ### allocateCoins — app/api/companies/[id]/employees/route.ts (POST) -/

/-- Request body of the allocate handler; `fromUserId` is `session.user.id`. -/
structure AllocateReq where
  fromUserId : Nat
  toUserId : Nat
  amount : Int
  reasonText : Option String
deriving DecidableEq, Repr

/-- HTTP outcomes of the allocate handler, in source order. -/
inductive AllocateOutcome
  | invalidAmount      -- 400 "Missing required fields or invalid amount"
  | senderNotFound     -- 404 "Sender not found"
  | receiverNotFound   -- 404 "Receiver not found"
  | forbidden          -- 403 "You are not authorized to allocate coins to this user"
  | insufficientCoins  -- 400 "Insufficient coins"
  | auditFailed        -- 500: addActivityLog threw after the $transaction committed
  | ok                 -- 200
deriving DecidableEq, Repr

/-- The handler's `isAuthorized` computation: SuperAdmin may target Admins;
an Admin may target Companies and Employees, in both cases only when
`receiver.createdById === sender.id` (the employee branch checks direct
creation only, despite its comment about the employee's company). -/
def allocAuthorized (sender receiver : User) : Bool :=
  if sender.role = .SUPERADMIN ∧ receiver.role = .ADMIN then true
  else if sender.role = .ADMIN then
    if receiver.role = .COMPANY ∨ receiver.role = .EMPLOYEE then
      receiver.createdById == some sender.id
    else false
  else false

/-- The allocate handler's `$transaction`: decrement sender, increment
receiver, insert one CoinTransaction with reason COIN_ALLOCATION. -/
def allocateCommit (db : DB) (req : AllocateReq) : DB :=
  { db with
      users := updateUserCoins (updateUserCoins db.users req.fromUserId (-req.amount))
                 req.toUserId req.amount,
      coinTransactions := db.coinTransactions ++
        [{ fromUserId := req.fromUserId, toUserId := req.toUserId,
           amount := req.amount, reason := some .COIN_ALLOCATION,
           reasonText := req.reasonText }] }

/-- The allocate handler's `addActivityLog` payload (action ALLOCATE). -/
def allocateLog (req : AllocateReq) : ActivityLog :=
  { userId := req.fromUserId, action := .ALLOCATE,
    targetUserId := some req.toUserId, targetResourceId := none,
    targetResourceType := none }

/-- POST /api/companies/[id]/employees (coin allocation).  The balance updates
and the CoinTransaction insert (reason COIN_ALLOCATION) are one `$transaction`
(`allocateCommit`); `addActivityLog` runs after the commit, as in
`transferCoins`. -/
def allocateCoins (db : DB) (req : AllocateReq) (auditFails : Bool) :
    AllocateOutcome × DB :=
  if req.amount ≤ 0 then (.invalidAmount, db)
  else
    match findUser db.users req.fromUserId with
    | none => (.senderNotFound, db)
    | some sender =>
      match findUser db.users req.toUserId with
      | none => (.receiverNotFound, db)
      | some receiver =>
        if ¬ allocAuthorized sender receiver then (.forbidden, db)
        else if sender.coins < req.amount then (.insufficientCoins, db)
        else if auditFails then (.auditFailed, allocateCommit db req)
        else (.ok, appendLog (allocateCommit db req) (allocateLog req))

/-! ### createSession, JSON variant — src/unnamed/part_000 (POST) -/

/-- Fresh row id for a new session (`@default(uuid())` in the schema; any id
distinct from the existing ones serves the claims). -/
def freshSessionId (ss : List Session) : Nat :=
  ss.foldr (fun s m => max (s.id + 1) m) 0

/-- Request body of the JSON createSession handler; `actorId` is `session.user.id`. -/
structure SessionReq where
  actorId : Nat
  source : String
  destination : String
  barcode : String
deriving DecidableEq, Repr

/-- HTTP outcomes of the two createSession handlers. -/
inductive CreateSessionOutcome
  | validationError             -- 400 "Missing required fields"
  | forbidden                   -- 403 "Only operators can create sessions" / withAuth
  | notInCompany                -- 400 "Operator must belong to a company"
  | insufficientCompanyBalance  -- 400 "Insufficient coins to create a session"
  | systemConfigError           -- 500 "No system admin found"
  | serverError                 -- 500: the $transaction rolled back
  | ok                          -- 201 / 200
deriving DecidableEq, Repr

/-- The JSON createSession handler's `$transaction`: debit the company account
1 coin, create the session (status PENDING) with its seal, insert the
SESSION_START CoinTransaction to the system SUPERADMIN, append the audit
entry. -/
def sessionJsonCommit (db : DB) (req : SessionReq) (cid sysAdminId : Nat) : DB :=
  let sid := freshSessionId db.sessions
  { db with
      users := updateUserCoins db.users cid (-1),
      sessions := db.sessions ++
        [{ id := sid, createdAt := 0, createdById := req.actorId,
           companyId := cid, source := req.source,
           destination := req.destination, status := .PENDING }],
      seals := db.seals ++
        [{ sessionId := sid, barcode := req.barcode, verified := false,
           verifiedById := none }],
      coinTransactions := db.coinTransactions ++
        [{ fromUserId := cid, toUserId := sysAdminId, amount := 1,
           reason := some .SESSION_START, reasonText := some req.barcode }],
      activityLogs := db.activityLogs ++
        [{ userId := req.actorId, action := .CREATE, targetUserId := none,
           targetResourceId := some sid, targetResourceType := some "SESSION" }] }

/-- JSON createSession (src/unnamed/part_000).  Gated by
`withAuth(handler, [EMPLOYEE])` — modelled from the spec, since lib/auth is not
among the sources: a non-EMPLOYEE actor is rejected before the handler runs.
Inside the handler: required-field check, OPERATOR subrole check, company
membership, company balance ≥ 1, a SUPERADMIN system account; then one
`$transaction` debits the company 1 coin, creates the session (status PENDING)
with its seal, the SESSION_START CoinTransaction, and the audit entry.  A
failing audit write (`auditFails`) makes the callback throw, rolling the whole
transaction back. -/
def createSessionJson (db : DB) (req : SessionReq) (auditFails : Bool) :
    CreateSessionOutcome × DB :=
  if req.source = "" ∨ req.destination = "" ∨ req.barcode = "" then
    (.validationError, db)
  else
    match findUser db.users req.actorId with
    | none => (.forbidden, db)
    | some actor =>
      if actor.role ≠ .EMPLOYEE then (.forbidden, db)
      else if actor.subrole ≠ some .OPERATOR then (.forbidden, db)
      else
        match actor.companyId with
        | none => (.notInCompany, db)
        | some cid =>
          match findUser db.users cid with
          | none => (.insufficientCompanyBalance, db)
          | some company =>
            if company.coins < 1 then (.insufficientCompanyBalance, db)
            else
              match db.users.find? (fun u => u.role == .SUPERADMIN) with
              | none => (.systemConfigError, db)
              | some sysAdmin =>
                if auditFails then (.serverError, db)
                else (.ok, sessionJsonCommit db req cid sysAdmin.id)

/-! ### createSession, multipart variant — app/api/sessions/route.ts (POST) -/

/-- Multipart form fields the embedding needs; `actorId` is `session.user.id`. -/
structure MultipartSessionReq where
  actorId : Nat
  loadingSite : String
  receiverPartyName : String
  scannedCodes : List String
deriving DecidableEq, Repr

/-- The multipart createSession handler's `$transaction`: create the session
(status IN_PROGRESS), its seal (barcode = first scanned code or a generated
fallback), and the audit entry — no balance change, no CoinTransaction. -/
def sessionMultipartCommit (db : DB) (req : MultipartSessionReq) (cid : Nat) : DB :=
  let sid := freshSessionId db.sessions
  { db with
      sessions := db.sessions ++
        [{ id := sid, createdAt := 0, createdById := req.actorId,
           companyId := cid, source := req.loadingSite,
           destination := req.receiverPartyName, status := .IN_PROGRESS }],
      seals := db.seals ++
        [{ sessionId := sid, barcode := (req.scannedCodes.head?).getD "SEAL-generated",
           verified := false, verifiedById := none }],
      activityLogs := db.activityLogs ++
        [{ userId := req.actorId, action := .CREATE, targetUserId := none,
           targetResourceId := some sid, targetResourceType := some "session" }] }

/-- Multipart createSession (app/api/sessions/route.ts POST).  Checks the
OPERATOR role/subrole and company membership, then a single `$transaction`
creates the session with status IN_PROGRESS, its seal (barcode = first scanned
code, or a generated fallback), and the audit entry via the transaction client.
It never checks any balance, debits no coin and creates no CoinTransaction. -/
def createSessionMultipart (db : DB) (req : MultipartSessionReq)
    (auditFails : Bool) : CreateSessionOutcome × DB :=
  match findUser db.users req.actorId with
  | none => (.forbidden, db)
  | some actor =>
    if actor.role ≠ .EMPLOYEE ∨ actor.subrole ≠ some .OPERATOR then
      (.forbidden, db)
    else
      match actor.companyId with
      | none => (.notInCompany, db)
      | some cid =>
        if auditFails then (.serverError, db)
        else (.ok, sessionMultipartCommit db req cid)

/-! ### createAccount — src/unnamed/part_001 (POST) -/

/-- Fresh row id for a new user. -/
def freshUserId (us : List User) : Nat :=
  us.foldr (fun u m => max (u.id + 1) m) 0

/-- Fresh row id for a new company record. -/
def freshCompanyId (cs : List Company) : Nat :=
  cs.foldr (fun c m => max (c.id + 1) m) 0

/-- Request body of the user-creation handler; `actorId` is `session.user.id`. -/
structure CreateAccountReq where
  actorId : Nat
  name : String
  email : String
  password : String
  role : UserRole
  subrole : Option EmployeeSubrole
  companyId : Option Nat
  phone : Option String
  address : Option String
deriving DecidableEq, Repr

/-- JSON spelling of a role. -/
def UserRole.str : UserRole → String
  | .SUPERADMIN => "SUPERADMIN"
  | .ADMIN => "ADMIN"
  | .COMPANY => "COMPANY"
  | .EMPLOYEE => "EMPLOYEE"

/-- JSON spelling of a subrole. -/
def EmployeeSubrole.str : EmployeeSubrole → String
  | .OPERATOR => "OPERATOR"
  | .DRIVER => "DRIVER"
  | .TRANSPORTER => "TRANSPORTER"
  | .GUARD => "GUARD"

/-- JSON spelling of a nullable value. -/
def optStr {α : Type} (f : α → String) : Option α → String
  | none => "null"
  | some a => f a

/-- Serialization of `const \x7b password: _, ...userWithoutPassword \x7d = user`:
the response object spreads every user column except `password`. -/
def userWithoutPassword (u : User) : List (String × String) :=
  [("id", toString u.id),
   ("name", u.name),
   ("email", u.email),
   ("role", u.role.str),
   ("subrole", optStr EmployeeSubrole.str u.subrole),
   ("companyId", optStr toString u.companyId),
   ("coins", toString u.coins),
   ("createdById", optStr toString u.createdById)]

/-- HTTP outcomes of the user-creation handler, in source order.  `ok` carries
the serialized user object of the JSON response (for the COMPANY branch, its
`user` field). -/
inductive CreateAccountOutcome
  | unauthorized                              -- withAuth([SUPERADMIN, ADMIN]) rejection
  | validationError                           -- 400 "Missing required fields" / employee checks
  | duplicateEmail                            -- 400 "Email already in use"
  | forbidden                                 -- 403 role-matrix rejection
  | companyNotFound                           -- 404 "Company not found"
  | createFailed                              -- 500: prisma.user.create threw
  | ok (response : List (String × String))    -- 201
deriving DecidableEq, Repr

/-- The COMPANY branch of the user-creation handler:
`prisma.company.create`, then `prisma.user.create` — two sequential
independent writes, no `$transaction`; when the user insert fails
(`userCreateFails = true`) the already-inserted Company row stays. -/
def createCompanyAccount (db : DB) (req : CreateAccountReq)
    (userCreateFails : Bool) : CreateAccountOutcome × DB :=
  let company : Company :=
    { id := freshCompanyId db.companies, name := req.name, email := req.email }
  let db1 : DB := { db with companies := db.companies ++ [company] }
  if userCreateFails then (.createFailed, db1)
  else
    let user : User :=
      { id := freshUserId db1.users, name := req.name, email := req.email,
        password := hashPassword req.password, role := .COMPANY,
        subrole := none, companyId := some company.id, coins := 0,
        createdById := some req.actorId }
    let log : ActivityLog :=
      { userId := req.actorId, action := .CREATE,
        targetUserId := some user.id, targetResourceId := some user.id,
        targetResourceType := some "USER" }
    (.ok (userWithoutPassword user),
     { db1 with users := db1.users ++ [user],
                activityLogs := db1.activityLogs ++ [log] })

/-- The EMPLOYEE branch of the user-creation handler: companyId and subrole
are required, the referenced company record must exist; then one user
insert. -/
def createEmployeeAccount (db : DB) (req : CreateAccountReq)
    (userCreateFails : Bool) : CreateAccountOutcome × DB :=
  match req.companyId with
  | none => (.validationError, db)
  | some cid =>
    match req.subrole with
    | none => (.validationError, db)
    | some sub =>
      match db.companies.find? (fun c => c.id == cid) with
      | none => (.companyNotFound, db)
      | some _ =>
        if userCreateFails then (.createFailed, db)
        else
          let user : User :=
            { id := freshUserId db.users, name := req.name,
              email := req.email, password := hashPassword req.password,
              role := .EMPLOYEE, subrole := some sub, companyId := some cid,
              coins := 0, createdById := some req.actorId }
          let log : ActivityLog :=
            { userId := req.actorId, action := .CREATE,
              targetUserId := some user.id, targetResourceId := some user.id,
              targetResourceType := some "USER" }
          (.ok (userWithoutPassword user),
           { db with users := db.users ++ [user],
                     activityLogs := db.activityLogs ++ [log] })

/-- The fallback ("For Admin or SuperAdmin") branch of the user-creation
handler: the requested role — whatever it is — is stored as-is, with no
further role check. -/
def createOtherAccount (db : DB) (req : CreateAccountReq)
    (userCreateFails : Bool) : CreateAccountOutcome × DB :=
  if userCreateFails then (.createFailed, db)
  else
    let user : User :=
      { id := freshUserId db.users, name := req.name, email := req.email,
        password := hashPassword req.password, role := req.role,
        subrole := none, companyId := none, coins := 0,
        createdById := some req.actorId }
    let log : ActivityLog :=
      { userId := req.actorId, action := .CREATE,
        targetUserId := some user.id, targetResourceId := some user.id,
        targetResourceType := some "USER" }
    (.ok (userWithoutPassword user),
     { db with users := db.users ++ [user],
               activityLogs := db.activityLogs ++ [log] })

/-- POST user creation (src/unnamed/part_001).  Gated by
`withAuth(handler, [SUPERADMIN, ADMIN])` — modelled from the spec, since
lib/auth is not among the sources.  In-handler, in source order: required
fields, duplicate email, `role=ADMIN` requires a SUPERADMIN actor,
`role∈\x7bCOMPANY,EMPLOYEE\x7d` requires an ADMIN actor; then the COMPANY branch
creates a Company record and its User sequentially (no `$transaction`), the
EMPLOYEE branch validates companyId/subrole/company existence, and the
fallback branch creates a user of any other requested role — including
SUPERADMIN — with no further role check. -/
def createAccount (db : DB) (req : CreateAccountReq) (userCreateFails : Bool) :
    CreateAccountOutcome × DB :=
  match findUser db.users req.actorId with
  | none => (.unauthorized, db)
  | some actor =>
    if actor.role ≠ .SUPERADMIN ∧ actor.role ≠ .ADMIN then (.unauthorized, db)
    else if req.name = "" ∨ req.email = "" ∨ req.password = "" then
      (.validationError, db)
    else if db.users.any (fun u => u.email == req.email) then
      (.duplicateEmail, db)
    else if req.role = .ADMIN ∧ actor.role ≠ .SUPERADMIN then (.forbidden, db)
    else if (req.role = .COMPANY ∨ req.role = .EMPLOYEE) ∧ actor.role ≠ .ADMIN then
      (.forbidden, db)
    else if req.role = .COMPANY then createCompanyAccount db req userCreateFails
    else if req.role = .EMPLOYEE then createEmployeeAccount db req userCreateFails
    else createOtherAccount db req userCreateFails

/-! ### listSessions — app/api/sessions/route.ts (GET), EMPLOYEE-role paths -/

/-- Query parameters of GET /api/sessions the EMPLOYEE paths read. -/
structure ListParams where
  page : Nat
  limit : Nat
  statusFilter : Option SessionStatus
  needsVerification : Bool
  companyIdFilter : Option Nat
deriving DecidableEq, Repr

/-- The accumulated prisma `where` clause for the session query: an optional
status equality, an optional companyId equality, and — for non-GUARD
employees — the `OR: [\x7bcreatedById\x7d, \x7bseal.verifiedById\x7d]` condition
(carrying the employee's id). -/
structure SessionWhere where
  status : Option SessionStatus
  companyId : Option Nat
  createdOrVerifiedBy : Option Nat
deriving DecidableEq, Repr

/-- Model of `include: { seal: true }` — the seal relation of a session (`sessionId`
is unique). -/
def sealOf (db : DB) (sid : Nat) : Option Seal :=
  db.seals.find? (fun s => s.sessionId == sid)

/-- Whether a session row satisfies the accumulated `where` clause. -/
def matchesWhere (db : DB) (w : SessionWhere) (s : Session) : Bool :=
  (match w.status with
   | none => true
   | some st => s.status == st) &&
  (match w.companyId with
   | none => true
   | some c => s.companyId == c) &&
  (match w.createdOrVerifiedBy with
   | none => true
   | some uid =>
     s.createdById == uid ||
       (match sealOf db s.id with
        | some sl => sl.verifiedById == some uid
        | none => false))

/-- Insert keeping the list sorted by `createdAt` descending. -/
def insertDesc (s : Session) : List Session → List Session
  | [] => [s]
  | t :: ts => if t.createdAt ≤ s.createdAt then s :: t :: ts else t :: insertDesc s ts

/-- Model of `orderBy: { createdAt: "desc" }`. -/
def sortByCreatedDesc (ss : List Session) : List Session :=
  ss.foldr insertDesc []

/-- GET /api/sessions for an EMPLOYEE-role actor (the only handler paths the
claims touch; SUPERADMIN/ADMIN/COMPANY branches are not embedded and the
function returns `[]` for such actors).  Where-clause construction mirrors the
handler: the needsVerification branch sets `status = IN_PROGRESS` and copies
only the caller-supplied companyId filter; the GUARD-specific block — which
scopes the query to the guard's own company — runs only when
`needsVerification` is false; non-GUARD employees get the
createdById/seal-verifiedById OR-filter, again only when `needsVerification`
is false.  After the query, the needsVerification post-processing keeps only
sessions having an unverified seal. -/
def listSessionsEmployee (db : DB) (actorId : Nat) (p : ListParams) :
    List Session :=
  match findUser db.users actorId with
  | none => []
  | some actor =>
    if actor.role ≠ .EMPLOYEE then []
    else
      let base : SessionWhere :=
        if p.needsVerification then
          { status := some .IN_PROGRESS, companyId := p.companyIdFilter,
            createdOrVerifiedBy := none }
        else
          { status := p.statusFilter, companyId := p.companyIdFilter,
            createdOrVerifiedBy := none }
      let afterGuard : SessionWhere :=
        if actor.subrole = some .GUARD ∧ ¬ p.needsVerification then
          match actor.companyId with
          | some cid =>
            { base with
                companyId := some cid,
                status := if p.statusFilter = none then some .IN_PROGRESS
                          else base.status }
          | none => base
        else base
      let w : SessionWhere :=
        if ¬ p.needsVerification ∧ actor.subrole ≠ some .GUARD then
          { afterGuard with createdOrVerifiedBy := some actorId }
        else afterGuard
      let rows :=
        ((sortByCreatedDesc (db.sessions.filter (matchesWhere db w))).drop
          ((p.page - 1) * p.limit)).take p.limit
      if p.needsVerification then
        rows.filter (fun s =>
          match sealOf db s.id with
          | some sl => !sl.verified
          | none => false)
      else rows

/-! ### Concrete fixture stores for witnesses and counterexamples -/

/-- Two-account store: a SUPERADMIN with 100 coins and an ADMIN with 50. -/
def dbPair : DB :=
  { users :=
      [{ id := 1, name := "Alice", email := "a@x", password := "p1",
         role := .SUPERADMIN, subrole := none, companyId := none,
         coins := 100, createdById := none },
       { id := 2, name := "Bob", email := "b@x", password := "p2",
         role := .ADMIN, subrole := none, companyId := none,
         coins := 50, createdById := some 1 }],
    companies := [], coinTransactions := [], sessions := [], seals := [],
    activityLogs := [] }

/-- A transfer of 3 coins from user 1 to user 2. -/
def reqPair : TransferReq :=
  { fromUserId := 1, toUserId := 2, amount := 3,
    reason := some .EMPLOYEE_TRANSFER, notes := none }

/-- Store for the createSession handlers: a SUPERADMIN system account, a
COMPANY account (id 10) with 5 coins, and an OPERATOR employee of that
company. -/
def dbSess : DB :=
  { users :=
      [{ id := 1, name := "Root", email := "r@x", password := "p",
         role := .SUPERADMIN, subrole := none, companyId := none,
         coins := 0, createdById := none },
       { id := 10, name := "Acme", email := "co@x", password := "p",
         role := .COMPANY, subrole := none, companyId := none,
         coins := 5, createdById := none },
       { id := 3, name := "Op", email := "op@x", password := "p",
         role := .EMPLOYEE, subrole := some .OPERATOR, companyId := some 10,
         coins := 0, createdById := none }],
    companies := [], coinTransactions := [], sessions := [], seals := [],
    activityLogs := [] }

/-- Same store but the company account holds 0 coins. -/
def dbSessZero : DB :=
  { dbSess with
      users := dbSess.users.map
        (fun u => if u.id = 10 then { u with coins := 0 } else u) }

/-- JSON createSession request by the operator. -/
def reqSess : SessionReq :=
  { actorId := 3, source := "s", destination := "d", barcode := "b" }

/-- Multipart createSession request by the operator. -/
def reqSessMp : MultipartSessionReq :=
  { actorId := 3, loadingSite := "s", receiverPartyName := "d",
    scannedCodes := ["b"] }

/-- Store for allocateCoins: admin 1 created the COMPANY account 2 (whose
company record id is 10); employee 3 belongs to company 10 but was created by
admin 4. -/
def dbAlloc : DB :=
  { users :=
      [{ id := 1, name := "AdminOne", email := "a1@x", password := "p",
         role := .ADMIN, subrole := none, companyId := none,
         coins := 50, createdById := none },
       { id := 2, name := "Acme", email := "acme@x", password := "p",
         role := .COMPANY, subrole := none, companyId := some 10,
         coins := 0, createdById := some 1 },
       { id := 3, name := "Emp", email := "e@x", password := "p",
         role := .EMPLOYEE, subrole := some .OPERATOR, companyId := some 10,
         coins := 0, createdById := some 4 },
       { id := 4, name := "AdminTwo", email := "a2@x", password := "p",
         role := .ADMIN, subrole := none, companyId := none,
         coins := 0, createdById := none }],
    companies := [{ id := 10, name := "Acme", email := "acme@x" }],
    coinTransactions := [], sessions := [], seals := [], activityLogs := [] }

/-- Admin 1 allocating 3 coins to the chain employee 3. -/
def reqAllocChain : AllocateReq :=
  { fromUserId := 1, toUserId := 3, amount := 3, reasonText := none }

/-- Admin 1 allocating 3 coins to a nonexistent account. -/
def reqAllocMissing : AllocateReq :=
  { fromUserId := 1, toUserId := 99, amount := 3, reasonText := none }

/-- Store for createAccount: a single ADMIN actor. -/
def dbAcct : DB :=
  { users :=
      [{ id := 1, name := "AdminOne", email := "a1@x", password := "p",
         role := .ADMIN, subrole := none, companyId := none,
         coins := 0, createdById := none }],
    companies := [], coinTransactions := [], sessions := [], seals := [],
    activityLogs := [] }

/-- The ADMIN actor requesting a SUPERADMIN account. -/
def reqAcctSuper : CreateAccountReq :=
  { actorId := 1, name := "Eve", email := "eve@x", password := "pw",
    role := .SUPERADMIN, subrole := none, companyId := none,
    phone := none, address := none }

/-- The ADMIN actor requesting a COMPANY account. -/
def reqAcctCompany : CreateAccountReq :=
  { actorId := 1, name := "NewCo", email := "newco@x", password := "pw",
    role := .COMPANY, subrole := none, companyId := none,
    phone := none, address := none }

/-- Store for listSessions: a GUARD of company 10, and an IN_PROGRESS session
of company 20 with an unverified seal. -/
def dbGuard : DB :=
  { users :=
      [{ id := 1, name := "G", email := "g@x", password := "p",
         role := .EMPLOYEE, subrole := some .GUARD, companyId := some 10,
         coins := 0, createdById := none }],
    companies := [],
    coinTransactions := [],
    sessions :=
      [{ id := 100, createdAt := 0, createdById := 5, companyId := 20,
         source := "s", destination := "d", status := .IN_PROGRESS }],
    seals :=
      [{ sessionId := 100, barcode := "z", verified := false,
         verifiedById := none }],
    activityLogs := [] }

/-- The needsVerification query with no caller-supplied filters. -/
def paramsGuard : ListParams :=
  { page := 1, limit := 10, statusFilter := none, needsVerification := true,
    companyIdFilter := none }

/-! ### Lemmas about the store helpers -/

theorem findUser_mem {us : List User} {uid : Nat} {u : User}
    (h : findUser us uid = some u) : u ∈ us :=
  List.mem_of_find?_eq_some h

theorem findUser_id {us : List User} {uid : Nat} {u : User}
    (h : findUser us uid = some u) : u.id = uid := by
  have := List.find?_some h
  simpa using this

theorem updateUserCoins_of_not_found {us : List User} {uid : Nat} {d : Int}
    (h : findUser us uid = none) : updateUserCoins us uid d = us := by
  induction us with
  | nil => rfl
  | cons u rest ih =>
    unfold findUser at h ih
    rw [List.find?_cons] at h
    unfold updateUserCoins
    by_cases hid : u.id = uid
    · simp [hid] at h
    · simp only [if_neg hid]
      have hbeq : (u.id == uid) = false := by simp [hid]
      rw [hbeq] at h
      rw [ih h]

theorem sumCoins_updateUserCoins {us : List User} {uid : Nat} {u : User} (d : Int)
    (h : findUser us uid = some u) :
    sumCoins (updateUserCoins us uid d) = sumCoins us + d := by
  induction us with
  | nil => simp [findUser] at h
  | cons v rest ih =>
    unfold findUser at h ih
    rw [List.find?_cons] at h
    by_cases hid : v.id = uid
    · unfold updateUserCoins
      simp only [if_pos hid]
      simp [sumCoins]
      ring
    · have hbeq : (v.id == uid) = false := by simp [hid]
      rw [hbeq] at h
      unfold updateUserCoins
      simp only [if_neg hid]
      simp [sumCoins] at ih ⊢
      rw [ih h]
      ring

theorem findUser_updateUserCoins_self {us : List User} {uid : Nat} {u : User} (d : Int)
    (h : findUser us uid = some u) :
    findUser (updateUserCoins us uid d) uid = some { u with coins := u.coins + d } := by
  induction us with
  | nil => simp [findUser] at h
  | cons v rest ih =>
    unfold findUser at h ih ⊢
    rw [List.find?_cons] at h
    by_cases hid : v.id = uid
    · unfold updateUserCoins
      simp only [if_pos hid]
      have hbeq : (v.id == uid) = true := by simp [hid]
      rw [hbeq] at h
      rw [List.find?_cons]
      simp only [hbeq]
      simp at h
      simp [h]
    · have hbeq : (v.id == uid) = false := by simp [hid]
      rw [hbeq] at h
      unfold updateUserCoins
      simp only [if_neg hid]
      rw [List.find?_cons]
      simp only [hbeq]
      exact ih h

theorem findUser_updateUserCoins_ne (us : List User) {a b : Nat} (d : Int)
    (h : a ≠ b) :
    findUser (updateUserCoins us b d) a = findUser us a := by
  induction us with
  | nil => rfl
  | cons v rest ih =>
    unfold updateUserCoins
    by_cases hid : v.id = b
    · simp only [if_pos hid]
      unfold findUser
      rw [List.find?_cons, List.find?_cons]
      have : (v.id == a) = false := by
        simp only [beq_eq_false_iff_ne, ne_eq]
        intro hva; exact h (hva ▸ hid ▸ rfl)
      simp only [this]
    · simp only [if_neg hid]
      unfold findUser at ih ⊢
      by_cases hva : v.id = a
      · rw [List.find?_cons_of_pos _ (by simp [hva]), List.find?_cons_of_pos _ (by simp [hva])]
      · rw [List.find?_cons_of_neg _ (by simp [hva]), List.find?_cons_of_neg _ (by simp [hva])]
        exact ih

theorem mem_updateUserCoins {us : List User} {uid : Nat} {d : Int} {v : User}
    (h : v ∈ updateUserCoins us uid d) :
    v ∈ us ∨ ∃ u, findUser us uid = some u ∧ v = { u with coins := u.coins + d } := by
  induction us with
  | nil => simp [updateUserCoins] at h
  | cons w rest ih =>
    unfold updateUserCoins at h
    by_cases hid : w.id = uid
    · simp only [if_pos hid] at h
      rcases List.mem_cons.mp h with h1 | h1
      · right
        refine ⟨w, ?_, h1⟩
        unfold findUser
        rw [List.find?_cons]
        simp [hid]
      · left; exact List.mem_cons_of_mem _ h1
    · simp only [if_neg hid] at h
      rcases List.mem_cons.mp h with h1 | h1
      · left; simp [h1]
      · rcases ih h1 with h2 | ⟨u, hu, hv⟩
        · left; exact List.mem_cons_of_mem _ h2
        · right
          refine ⟨u, ?_, hv⟩
          unfold findUser at hu ⊢
          rw [List.find?_cons]
          have : (w.id == uid) = false := by simp [hid]
          simp only [this]
          exact hu

theorem nonneg_updateUserCoins {us : List User} {uid : Nat} {d : Int}
    (h : ∀ u ∈ us, 0 ≤ u.coins)
    (h2 : ∀ u, findUser us uid = some u → 0 ≤ u.coins + d) :
    ∀ v ∈ updateUserCoins us uid d, 0 ≤ v.coins := by
  intro v hv
  rcases mem_updateUserCoins hv with h1 | ⟨u, hu, hveq⟩
  · exact h v h1
  · subst hveq
    exact h2 u hu

theorem nonneg_updateUserCoins_incr {us : List User} {uid : Nat} {d : Int}
    (h : ∀ u ∈ us, 0 ≤ u.coins) (hd : 0 ≤ d) :
    ∀ v ∈ updateUserCoins us uid d, 0 ≤ v.coins := by
  refine nonneg_updateUserCoins h ?_
  intro u hu
  have := h u (findUser_mem hu)
  omega

/-! ### Inversion lemmas for the handlers -/

theorem transferCoins_ok_elim {db db' : DB} {req : TransferReq} {f : Bool}
    (h : transferCoins db req f = (.ok, db')) :
    ∃ reason sender recip,
      req.reason = some reason ∧
      0 < req.amount ∧
      req.fromUserId ≠ req.toUserId ∧
      findUser db.users req.toUserId = some recip ∧
      findUser db.users req.fromUserId = some sender ∧
      req.amount ≤ sender.coins ∧
      db' = appendLog (transferCommit db req reason) (transferLog req) := by
  unfold transferCoins at h
  split at h
  · simp at h
  next hamt =>
    split at h
    · simp at h
    next reason hreason =>
      split at h
      · simp at h
      next hself =>
        split at h
        · simp at h
        next recip hrec =>
          split at h
          · simp at h
          next sender hsend =>
            split at h
            · simp at h
            next hcoins =>
              split at h
              · simp at h
              next hf =>
                injection h with h1 h2
                exact ⟨reason, sender, recip, hreason, by omega, hself, hrec,
                  hsend, by omega, h2.symm⟩

theorem transferCoins_cases (db : DB) (req : TransferReq) (f : Bool) :
    (∃ e, transferCoins db req f = (e, db) ∧ e ≠ .ok ∧ e ≠ .auditFailed) ∨
    (∃ reason sender recip,
      req.reason = some reason ∧ 0 < req.amount ∧
      req.fromUserId ≠ req.toUserId ∧
      findUser db.users req.toUserId = some recip ∧
      findUser db.users req.fromUserId = some sender ∧
      req.amount ≤ sender.coins ∧
      ((f = true ∧
          transferCoins db req f = (.auditFailed, transferCommit db req reason)) ∨
       (f = false ∧
          transferCoins db req f
            = (.ok, appendLog (transferCommit db req reason) (transferLog req))))) := by
  unfold transferCoins
  split
  · exact Or.inl ⟨_, rfl, by decide, by decide⟩
  next hamt =>
    split
    · exact Or.inl ⟨_, rfl, by decide, by decide⟩
    next reason hreason =>
      split
      · exact Or.inl ⟨_, rfl, by decide, by decide⟩
      next hself =>
        split
        · exact Or.inl ⟨_, rfl, by decide, by decide⟩
        next recip hrec =>
          split
          · exact Or.inl ⟨_, rfl, by decide, by decide⟩
          next sender hsend =>
            split
            · exact Or.inl ⟨_, rfl, by decide, by decide⟩
            next hcoins =>
              split
              next hf =>
                exact Or.inr ⟨reason, sender, recip, hreason, by omega, hself,
                  hrec, hsend, by omega, Or.inl ⟨hf, rfl⟩⟩
              next hf =>
                exact Or.inr ⟨reason, sender, recip, hreason, by omega, hself,
                  hrec, hsend, by omega,
                  Or.inr ⟨by simpa using hf, rfl⟩⟩

theorem allocateCoins_cases (db : DB) (req : AllocateReq) (f : Bool) :
    (∃ e, allocateCoins db req f = (e, db) ∧ e ≠ .ok ∧ e ≠ .auditFailed) ∨
    (∃ sender receiver,
      0 < req.amount ∧
      findUser db.users req.fromUserId = some sender ∧
      findUser db.users req.toUserId = some receiver ∧
      allocAuthorized sender receiver = true ∧
      req.amount ≤ sender.coins ∧
      ((f = true ∧
          allocateCoins db req f = (.auditFailed, allocateCommit db req)) ∨
       (f = false ∧
          allocateCoins db req f
            = (.ok, appendLog (allocateCommit db req) (allocateLog req))))) := by
  unfold allocateCoins
  split
  · exact Or.inl ⟨_, rfl, by decide, by decide⟩
  next hamt =>
    split
    · exact Or.inl ⟨_, rfl, by decide, by decide⟩
    next sender hsend =>
      split
      · exact Or.inl ⟨_, rfl, by decide, by decide⟩
      next receiver hrecv =>
        split
        · exact Or.inl ⟨_, rfl, by decide, by decide⟩
        next hauth =>
          split
          · exact Or.inl ⟨_, rfl, by decide, by decide⟩
          next hcoins =>
            split
            next hf =>
              exact Or.inr ⟨sender, receiver, by omega, hsend, hrecv,
                by simpa using hauth, by omega, Or.inl ⟨hf, rfl⟩⟩
            next hf =>
              exact Or.inr ⟨sender, receiver, by omega, hsend, hrecv,
                by simpa using hauth, by omega, Or.inr ⟨by simpa using hf, rfl⟩⟩

theorem createSessionJson_cases (db : DB) (req : SessionReq) (f : Bool) :
    (∃ e, createSessionJson db req f = (e, db) ∧ e ≠ .ok) ∨
    (∃ actor cid company sysAdmin,
      findUser db.users req.actorId = some actor ∧
      actor.role = .EMPLOYEE ∧ actor.subrole = some .OPERATOR ∧
      actor.companyId = some cid ∧
      findUser db.users cid = some company ∧ 1 ≤ company.coins ∧
      db.users.find? (fun u => u.role == .SUPERADMIN) = some sysAdmin ∧
      f = false ∧
      createSessionJson db req f = (.ok, sessionJsonCommit db req cid sysAdmin.id)) := by
  unfold createSessionJson
  split
  · exact Or.inl ⟨_, rfl, by decide⟩
  next hval =>
    split
    · exact Or.inl ⟨_, rfl, by decide⟩
    next actor hactor =>
      split
      · exact Or.inl ⟨_, rfl, by decide⟩
      next hrole =>
        split
        · exact Or.inl ⟨_, rfl, by decide⟩
        next hsub =>
          split
          · exact Or.inl ⟨_, rfl, by decide⟩
          next cid hcid =>
            split
            · exact Or.inl ⟨_, rfl, by decide⟩
            next company hcompany =>
              split
              · exact Or.inl ⟨_, rfl, by decide⟩
              next hcoins =>
                split
                · exact Or.inl ⟨_, rfl, by decide⟩
                next sysAdmin hsys =>
                  split
                  next hf => exact Or.inl ⟨_, rfl, by decide⟩
                  next hf =>
                    exact Or.inr ⟨actor, cid, company, sysAdmin, hactor,
                      by simpa using hrole, by simpa using hsub, hcid,
                      hcompany, by omega, hsys, by simpa using hf, rfl⟩

theorem createSessionMultipart_cases (db : DB) (req : MultipartSessionReq)
    (f : Bool) :
    (∃ e, createSessionMultipart db req f = (e, db) ∧ e ≠ .ok) ∨
    (∃ actor cid,
      findUser db.users req.actorId = some actor ∧
      actor.role = .EMPLOYEE ∧ actor.subrole = some .OPERATOR ∧
      actor.companyId = some cid ∧
      f = false ∧
      createSessionMultipart db req f = (.ok, sessionMultipartCommit db req cid)) := by
  unfold createSessionMultipart
  split
  · exact Or.inl ⟨_, rfl, by decide⟩
  next actor hactor =>
    split
    · exact Or.inl ⟨_, rfl, by decide⟩
    next hrole =>
      split
      · exact Or.inl ⟨_, rfl, by decide⟩
      next cid hcid =>
        split
        next hf => exact Or.inl ⟨_, rfl, by decide⟩
        next hf =>
          rw [not_or] at hrole
          exact Or.inr ⟨actor, cid, hactor, by
              have := hrole.1
              simpa using this, by
              have := hrole.2
              simpa using this, hcid, by simpa using hf, rfl⟩

theorem nonneg_moveUsers {us : List User} {a b : Nat} {n : Int} {sender : User}
    (h : ∀ u ∈ us, 0 ≤ u.coins)
    (hsend : findUser us a = some sender) (hn : 0 ≤ n) (hcoins : n ≤ sender.coins) :
    ∀ v ∈ updateUserCoins (updateUserCoins us a (-n)) b n, 0 ≤ v.coins := by
  apply nonneg_updateUserCoins_incr _ hn
  apply nonneg_updateUserCoins h
  intro u hu
  rw [hsend] at hu
  cases hu
  omega

theorem createCompanyAccount_shapes (db : DB) (req : CreateAccountReq)
    (fF : Bool) :
    (fF = true ∧ createCompanyAccount db req fF = (.createFailed,
      { db with companies := db.companies ++
          [{ id := freshCompanyId db.companies, name := req.name,
             email := req.email }] })) ∨
    (∃ u db', fF = false ∧
      createCompanyAccount db req fF = (.ok (userWithoutPassword u), db') ∧
      u.role = .COMPANY ∧ u.password = hashPassword req.password ∧
      u.companyId = some (freshCompanyId db.companies) ∧
      db'.users = db.users ++ [u] ∧
      db'.activityLogs.length = db.activityLogs.length + 1 ∧
      db'.companies = db.companies ++
        [{ id := freshCompanyId db.companies, name := req.name,
           email := req.email }]) := by
  unfold createCompanyAccount
  split
  next hf => exact Or.inl ⟨by simpa using hf, rfl⟩
  next hf =>
    exact Or.inr ⟨_, _, by simpa using hf, rfl, rfl, rfl, rfl, rfl,
      by simp, rfl⟩

theorem createEmployeeAccount_shapes (db : DB) (req : CreateAccountReq)
    (fF : Bool) :
    (∃ e, createEmployeeAccount db req fF = (e, db) ∧
      (∀ r, e ≠ .ok r) ∧ (e = .createFailed → fF = true)) ∨
    (∃ u db', fF = false ∧
      createEmployeeAccount db req fF = (.ok (userWithoutPassword u), db') ∧
      u.role = .EMPLOYEE ∧ u.password = hashPassword req.password ∧
      db'.users = db.users ++ [u] ∧
      db'.activityLogs.length = db.activityLogs.length + 1 ∧
      db'.companies = db.companies) := by
  unfold createEmployeeAccount
  split
  · exact Or.inl ⟨_, rfl, fun r h => CreateAccountOutcome.noConfusion h,
      fun h => absurd h (by simp)⟩
  next cid hcid =>
    split
    · exact Or.inl ⟨_, rfl, fun r h => CreateAccountOutcome.noConfusion h,
        fun h => absurd h (by simp)⟩
    next sub hsub =>
      split
      · exact Or.inl ⟨_, rfl, fun r h => CreateAccountOutcome.noConfusion h,
          fun h => absurd h (by simp)⟩
      next comp hcomp =>
        split
        next hf =>
          exact Or.inl ⟨_, rfl, fun r h => CreateAccountOutcome.noConfusion h,
            fun _ => by simpa using hf⟩
        next hf =>
          exact Or.inr ⟨_, _, by simpa using hf, rfl, rfl, rfl, rfl,
            by simp, rfl⟩

theorem createOtherAccount_shapes (db : DB) (req : CreateAccountReq)
    (fF : Bool) :
    (fF = true ∧ createOtherAccount db req fF = (.createFailed, db)) ∨
    (∃ u db', fF = false ∧
      createOtherAccount db req fF = (.ok (userWithoutPassword u), db') ∧
      u.role = req.role ∧ u.password = hashPassword req.password ∧
      db'.users = db.users ++ [u] ∧
      db'.activityLogs.length = db.activityLogs.length + 1 ∧
      db'.companies = db.companies) := by
  unfold createOtherAccount
  split
  next hf => exact Or.inl ⟨by simpa using hf, rfl⟩
  next hf =>
    exact Or.inr ⟨_, _, by simpa using hf, rfl, rfl, rfl, rfl, by simp, rfl⟩

theorem createAccount_shapes (db : DB) (req : CreateAccountReq) (fF : Bool) :
    (∃ e, createAccount db req fF = (e, db) ∧ (∀ r, e ≠ .ok r) ∧
      (e = .createFailed → fF = true ∧ req.role ≠ .COMPANY)) ∨
    (req.role = .COMPANY ∧ fF = true ∧
      createAccount db req fF = (.createFailed,
        { db with companies := db.companies ++
            [{ id := freshCompanyId db.companies, name := req.name,
               email := req.email }] })) ∨
    (∃ actor u db',
      findUser db.users req.actorId = some actor ∧
      (actor.role = .SUPERADMIN ∨ actor.role = .ADMIN) ∧
      (req.role = .ADMIN → actor.role = .SUPERADMIN) ∧
      ((req.role = .COMPANY ∨ req.role = .EMPLOYEE) → actor.role = .ADMIN) ∧
      u.role = req.role ∧ u.password = hashPassword req.password ∧
      fF = false ∧
      createAccount db req fF = (.ok (userWithoutPassword u), db') ∧
      db'.users = db.users ++ [u] ∧
      db'.activityLogs.length = db.activityLogs.length + 1 ∧
      (req.role = .COMPANY →
        db'.companies = db.companies ++
          [{ id := freshCompanyId db.companies, name := req.name,
             email := req.email }] ∧
        u.companyId = some (freshCompanyId db.companies)) ∧
      (req.role ≠ .COMPANY → db'.companies = db.companies)) := by
  unfold createAccount
  split
  · exact Or.inl ⟨_, rfl, fun r h => CreateAccountOutcome.noConfusion h,
      fun h => absurd h (by simp)⟩
  next actor hactor =>
    split
    · exact Or.inl ⟨_, rfl, fun r h => CreateAccountOutcome.noConfusion h,
        fun h => absurd h (by simp)⟩
    next hgate =>
      split
      · exact Or.inl ⟨_, rfl, fun r h => CreateAccountOutcome.noConfusion h,
          fun h => absurd h (by simp)⟩
      next hval =>
        split
        · exact Or.inl ⟨_, rfl, fun r h => CreateAccountOutcome.noConfusion h,
            fun h => absurd h (by simp)⟩
        next hdup =>
          split
          · exact Or.inl ⟨_, rfl, fun r h => CreateAccountOutcome.noConfusion h,
              fun h => absurd h (by simp)⟩
          next hAdm =>
            split
            · exact Or.inl ⟨_, rfl,
                fun r h => CreateAccountOutcome.noConfusion h,
                fun h => absurd h (by simp)⟩
            next hCE =>
              split
              next hcomp =>
                rcases createCompanyAccount_shapes db req fF with
                  ⟨hf, heq⟩ | ⟨u, db', hf, heq, hrole, hpw, hcid, hus, hlog, hco⟩
                · exact Or.inr (Or.inl ⟨hcomp, hf, heq⟩)
                · exact Or.inr (Or.inr ⟨actor, u, db', hactor, by tauto,
                    by tauto, by tauto, by rw [hcomp, hrole], hpw, hf, heq,
                    hus, hlog, fun _ => ⟨hco, hcid⟩,
                    fun h => absurd hcomp h⟩)
              next hcomp =>
                split
                next hemp =>
                  rcases createEmployeeAccount_shapes db req fF with
                    ⟨e, heq, hnok, hcf⟩ | ⟨u, db', hf, heq, hrole, hpw, hus, hlog, hco⟩
                  · exact Or.inl ⟨e, heq, hnok, fun h => ⟨hcf h, hcomp⟩⟩
                  · exact Or.inr (Or.inr ⟨actor, u, db', hactor, by tauto,
                      by tauto, by tauto, by rw [hemp, hrole], hpw, hf, heq,
                      hus, hlog, fun h => absurd h hcomp, fun _ => hco⟩)
                next hemp =>
                  rcases createOtherAccount_shapes db req fF with
                    ⟨hf, heq⟩ | ⟨u, db', hf, heq, hrole, hpw, hus, hlog, hco⟩
                  · exact Or.inl ⟨.createFailed, heq,
                      fun r h => CreateAccountOutcome.noConfusion h,
                      fun _ => ⟨hf, hcomp⟩⟩
                  · exact Or.inr (Or.inr ⟨actor, u, db', hactor, by tauto,
                      by tauto, by tauto, hrole, hpw, hf, heq, hus, hlog,
                      fun h => absurd h hcomp, fun _ => hco⟩)

/-! ### Claim theorems -/

/-- C1: for every successful `transferCoins(A, B, n)` the sender's balance
decreases by exactly n, the recipient's balance increases by exactly n, the sum
of all balances is unchanged (zero-sum), and exactly one CoinTransaction row
and exactly one ActivityLog row are created. -/
theorem transferCoins_zero_sum {db db' : DB} {req : TransferReq} {f : Bool}
    (h : transferCoins db req f = (.ok, db')) :
    balanceOf db' req.fromUserId
        = (balanceOf db req.fromUserId).map (fun b => b - req.amount) ∧
    balanceOf db' req.toUserId
        = (balanceOf db req.toUserId).map (fun b => b + req.amount) ∧
    sumCoins db'.users = sumCoins db.users ∧
    db'.coinTransactions.length = db.coinTransactions.length + 1 ∧
    db'.activityLogs.length = db.activityLogs.length + 1 := by
  obtain ⟨reason, sender, recip, hreason, hamt, hne, hrec, hsend, hcoins, hdb⟩ :=
    transferCoins_ok_elim h
  subst hdb
  have husers :
      (appendLog (transferCommit db req reason) (transferLog req)).users
        = updateUserCoins (updateUserCoins db.users req.fromUserId (-req.amount))
            req.toUserId req.amount := rfl
  have hfrom1 :
      findUser (updateUserCoins db.users req.fromUserId (-req.amount)) req.fromUserId
        = some { sender with coins := sender.coins + -req.amount } :=
    findUser_updateUserCoins_self _ hsend
  have hto1 :
      findUser (updateUserCoins db.users req.fromUserId (-req.amount)) req.toUserId
        = some recip := by
    rw [findUser_updateUserCoins_ne _ _ (Ne.symm hne)]
    exact hrec
  refine ⟨?_, ?_, ?_, ?_, ?_⟩
  · show (findUser _ req.fromUserId).map _ = _
    rw [husers, findUser_updateUserCoins_ne _ _ hne, hfrom1]
    unfold balanceOf
    rw [hsend]
    simp
    omega
  · show (findUser _ req.toUserId).map _ = _
    rw [husers, findUser_updateUserCoins_self _ hto1]
    unfold balanceOf
    rw [hrec]
    simp
  · rw [husers, sumCoins_updateUserCoins _ hto1, sumCoins_updateUserCoins _ hsend]
    omega
  · simp [appendLog, transferCommit]
  · simp [appendLog, transferCommit]

/-- Witness for C1: the concrete transfer of 3 coins in `dbPair` succeeds and
exhibits the zero-sum bookkeeping. -/
theorem transferCoins_zero_sum_witness :
    balanceOf (transferCoins dbPair reqPair false).2 reqPair.fromUserId
        = (balanceOf dbPair reqPair.fromUserId).map (fun b => b - reqPair.amount) ∧
    balanceOf (transferCoins dbPair reqPair false).2 reqPair.toUserId
        = (balanceOf dbPair reqPair.toUserId).map (fun b => b + reqPair.amount) ∧
    sumCoins (transferCoins dbPair reqPair false).2.users = sumCoins dbPair.users ∧
    (transferCoins dbPair reqPair false).2.coinTransactions.length
        = dbPair.coinTransactions.length + 1 ∧
    (transferCoins dbPair reqPair false).2.activityLogs.length
        = dbPair.activityLogs.length + 1 :=
  @transferCoins_zero_sum dbPair (transferCoins dbPair reqPair false).2 reqPair
    false (by decide)

/-- C2: starting from a store in which every balance is non-negative, every
run of `transferCoins`, `allocateCoins` and both `createSession` handlers
leaves every balance non-negative, and a run that fails its balance check
(insufficient coins) leaves the store completely unchanged. -/
theorem balances_stay_nonneg {db : DB} (h : nonNegCoins db) :
    (∀ req f, nonNegCoins (transferCoins db req f).2) ∧
    (∀ req f, nonNegCoins (allocateCoins db req f).2) ∧
    (∀ req f, nonNegCoins (createSessionJson db req f).2) ∧
    (∀ req f, nonNegCoins (createSessionMultipart db req f).2) ∧
    (∀ req f, (transferCoins db req f).1 = .insufficientCoins →
        (transferCoins db req f).2 = db) ∧
    (∀ req f, (allocateCoins db req f).1 = .insufficientCoins →
        (allocateCoins db req f).2 = db) ∧
    (∀ req f, (createSessionJson db req f).1 = .insufficientCompanyBalance →
        (createSessionJson db req f).2 = db) := by
  refine ⟨?_, ?_, ?_, ?_, ?_, ?_, ?_⟩
  · intro req f
    rcases transferCoins_cases db req f with ⟨e, heq, -, -⟩ |
      ⟨reason, sender, recip, -, hamt, -, -, hsend, hcoins, hcase⟩
    · rw [heq]; exact h
    · rcases hcase with ⟨-, heq⟩ | ⟨-, heq⟩ <;> rw [heq] <;>
        exact nonneg_moveUsers h hsend (by omega) hcoins
  · intro req f
    rcases allocateCoins_cases db req f with ⟨e, heq, -, -⟩ |
      ⟨sender, receiver, hamt, hsend, -, -, hcoins, hcase⟩
    · rw [heq]; exact h
    · rcases hcase with ⟨-, heq⟩ | ⟨-, heq⟩ <;> rw [heq] <;>
        exact nonneg_moveUsers h hsend (by omega) hcoins
  · intro req f
    rcases createSessionJson_cases db req f with ⟨e, heq, -⟩ |
      ⟨actor, cid, company, sysAdmin, -, -, -, -, hcompany, hcoins, -, -, heq⟩
    · rw [heq]; exact h
    · rw [heq]
      intro v hv
      refine nonneg_updateUserCoins h ?_ v hv
      intro u hu
      rw [hcompany] at hu
      cases hu
      omega
  · intro req f
    rcases createSessionMultipart_cases db req f with ⟨e, heq, -⟩ |
      ⟨actor, cid, -, -, -, -, -, heq⟩
    · rw [heq]; exact h
    · rw [heq]; exact h
  · intro req f hins
    rcases transferCoins_cases db req f with ⟨e, heq, -, -⟩ |
      ⟨reason, sender, recip, -, -, -, -, -, -, hcase⟩
    · rw [heq]
    · rcases hcase with ⟨-, heq⟩ | ⟨-, heq⟩ <;> rw [heq] at hins <;> simp at hins
  · intro req f hins
    rcases allocateCoins_cases db req f with ⟨e, heq, -, -⟩ |
      ⟨sender, receiver, -, -, -, -, -, hcase⟩
    · rw [heq]
    · rcases hcase with ⟨-, heq⟩ | ⟨-, heq⟩ <;> rw [heq] at hins <;> simp at hins
  · intro req f hins
    rcases createSessionJson_cases db req f with ⟨e, heq, -⟩ |
      ⟨actor, cid, company, sysAdmin, -, -, -, -, -, -, -, -, heq⟩
    · rw [heq]
    · rw [heq] at hins; simp at hins

/-- Witness for C2: the non-negativity preservation instantiated at the
concrete two-account store `dbPair`. -/
theorem balances_stay_nonneg_witness :
    (∀ req f, nonNegCoins (transferCoins dbPair req f).2) ∧
    (∀ req f, nonNegCoins (allocateCoins dbPair req f).2) ∧
    (∀ req f, nonNegCoins (createSessionJson dbPair req f).2) ∧
    (∀ req f, nonNegCoins (createSessionMultipart dbPair req f).2) ∧
    (∀ req f, (transferCoins dbPair req f).1 = .insufficientCoins →
        (transferCoins dbPair req f).2 = dbPair) ∧
    (∀ req f, (allocateCoins dbPair req f).1 = .insufficientCoins →
        (allocateCoins dbPair req f).2 = dbPair) ∧
    (∀ req f, (createSessionJson dbPair req f).1 = .insufficientCompanyBalance →
        (createSessionJson dbPair req f).2 = dbPair) :=
  @balances_stay_nonneg dbPair (by decide)

/-- C5 counterexample: in `dbPair`, a transfer whose audit write fails
(`auditFails = true`) still commits the balance updates and the
CoinTransaction row — the handler calls `addActivityLog` only after
`prisma.$transaction` has resolved, so the parent operation is not rolled
back and partial state persists, contradicting the claim that the audit entry
lives inside the same atomic unit for every ledger-mutating operation. -/
theorem audit_outside_transaction_counterexample :
    (transferCoins dbPair reqPair true).1 = .auditFailed ∧
    (transferCoins dbPair reqPair true).2.activityLogs = [] ∧
    (transferCoins dbPair reqPair true).2.coinTransactions.length = 1 ∧
    balanceOf (transferCoins dbPair reqPair true).2 1 = some 97 ∧
    balanceOf (transferCoins dbPair reqPair true).2 2 = some 53 := by
  decide

/-- C5 amended: for the two createSession handlers the audit entry is written
inside the `$transaction`, so a failing audit write rolls the whole operation
back; for `transferCoins` and `allocateCoins` the audit entry is written after
the transaction has committed, so a failing audit write leaves the balance
updates and the CoinTransaction committed with no audit row. -/
theorem audit_atomicity_amended :
    (∀ db req db', transferCoins db req true = (.auditFailed, db') →
        db'.activityLogs = db.activityLogs ∧
        db'.coinTransactions.length = db.coinTransactions.length + 1) ∧
    (∀ db req db', allocateCoins db req true = (.auditFailed, db') →
        db'.activityLogs = db.activityLogs ∧
        db'.coinTransactions.length = db.coinTransactions.length + 1) ∧
    (∀ db req, (createSessionJson db req true).2 = db) ∧
    (∀ db req, (createSessionMultipart db req true).2 = db) := by
  refine ⟨?_, ?_, ?_, ?_⟩
  · intro db req db' h
    rcases transferCoins_cases db req true with ⟨e, heq, -, hne⟩ |
      ⟨reason, sender, recip, -, -, -, -, -, -, hcase⟩
    · rw [heq] at h
      injection h with h1 h2
      exact absurd h1 hne
    · rcases hcase with ⟨-, heq⟩ | ⟨hf, -⟩
      · rw [heq] at h
        injection h with h1 h2
        subst h2
        simp [transferCommit]
      · simp at hf
  · intro db req db' h
    rcases allocateCoins_cases db req true with ⟨e, heq, -, hne⟩ |
      ⟨sender, receiver, -, -, -, -, -, hcase⟩
    · rw [heq] at h
      injection h with h1 h2
      exact absurd h1 hne
    · rcases hcase with ⟨-, heq⟩ | ⟨hf, -⟩
      · rw [heq] at h
        injection h with h1 h2
        subst h2
        simp [allocateCommit]
      · simp at hf
  · intro db req
    rcases createSessionJson_cases db req true with ⟨e, heq, -⟩ |
      ⟨actor, cid, company, sysAdmin, -, -, -, -, -, -, -, hf, -⟩
    · rw [heq]
    · simp at hf
  · intro db req
    rcases createSessionMultipart_cases db req true with ⟨e, heq, -⟩ |
      ⟨actor, cid, -, -, -, -, hf, -⟩
    · rw [heq]
    · simp at hf

/-- Witness for the amended C5: the concrete failed-audit transfer in `dbPair`
keeps its committed transaction row and writes no audit row. -/
theorem audit_atomicity_amended_witness :
    (transferCoins dbPair reqPair true).2.activityLogs = dbPair.activityLogs ∧
    (transferCoins dbPair reqPair true).2.coinTransactions.length
        = dbPair.coinTransactions.length + 1 :=
  audit_atomicity_amended.1 dbPair reqPair
    (transferCoins dbPair reqPair true).2 (by decide)

/-- C3 counterexample: in `dbSessZero` the operator's company account holds 0
coins, yet the multipart createSession handler succeeds, debits nothing,
creates no CoinTransaction, and leaves every balance unchanged — against the
claim that every successful createSession debits the company account 1 coin
and records a SESSION_START CoinTransaction, and that a 0-balance company
makes the call fail. -/
theorem createSession_multipart_no_debit_counterexample :
    (createSessionMultipart dbSessZero reqSessMp false).1 = .ok ∧
    (createSessionMultipart dbSessZero reqSessMp false).2.coinTransactions = [] ∧
    balanceOf dbSessZero 10 = some 0 ∧
    balanceOf (createSessionMultipart dbSessZero reqSessMp false).2 10 = some 0 ∧
    (createSessionMultipart dbSessZero reqSessMp false).2.sessions.length = 1 := by
  decide

/-- C3 amended: the JSON createSession handler behaves as claimed — a
success debits the operator's company account exactly 1 coin and creates
exactly one session, one SESSION_START CoinTransaction of amount 1, and one
audit row; a non-OPERATOR caller gets Forbidden with the store unchanged; a
company balance below 1 gets the insufficient-balance error with the store
unchanged.  The multipart handler checks the OPERATOR subrole (Forbidden
otherwise, store unchanged) but performs no balance check, no debit and no
CoinTransaction on success. -/
theorem createSession_amended :
    (∀ db req db' f, createSessionJson db req f = (.ok, db') →
      ∃ actor cid,
        findUser db.users req.actorId = some actor ∧
        actor.companyId = some cid ∧
        balanceOf db' cid = (balanceOf db cid).map (fun b => b - 1) ∧
        db'.sessions.length = db.sessions.length + 1 ∧
        (∃ txn, db'.coinTransactions = db.coinTransactions ++ [txn] ∧
          txn.amount = 1 ∧ txn.reason = some .SESSION_START) ∧
        db'.activityLogs.length = db.activityLogs.length + 1) ∧
    (∀ db req f actor,
      req.source ≠ "" → req.destination ≠ "" → req.barcode ≠ "" →
      findUser db.users req.actorId = some actor →
      actor.subrole ≠ some .OPERATOR →
      createSessionJson db req f = (.forbidden, db)) ∧
    (∀ db req f actor cid company,
      req.source ≠ "" → req.destination ≠ "" → req.barcode ≠ "" →
      findUser db.users req.actorId = some actor →
      actor.role = .EMPLOYEE → actor.subrole = some .OPERATOR →
      actor.companyId = some cid →
      findUser db.users cid = some company → company.coins < 1 →
      createSessionJson db req f = (.insufficientCompanyBalance, db)) ∧
    (∀ db req db' f, createSessionMultipart db req f = (.ok, db') →
      db'.users = db.users ∧
      db'.coinTransactions = db.coinTransactions ∧
      db'.sessions.length = db.sessions.length + 1 ∧
      db'.seals.length = db.seals.length + 1 ∧
      db'.activityLogs.length = db.activityLogs.length + 1) ∧
    (∀ db req f actor,
      findUser db.users req.actorId = some actor →
      (actor.role ≠ .EMPLOYEE ∨ actor.subrole ≠ some .OPERATOR) →
      createSessionMultipart db req f = (.forbidden, db)) := by
  refine ⟨?_, ?_, ?_, ?_, ?_⟩
  · intro db req db' f h
    rcases createSessionJson_cases db req f with ⟨e, heq, hne⟩ |
      ⟨actor, cid, company, sysAdmin, hactor, -, -, hcid, hcompany, -, -, -, heq⟩
    · rw [heq] at h
      injection h with h1 h2
      exact absurd h1 hne
    · rw [heq] at h
      injection h with h1 h2
      subst h2
      refine ⟨actor, cid, hactor, hcid, ?_, by simp [sessionJsonCommit], ?_,
        by simp [sessionJsonCommit]⟩
      · show (findUser (updateUserCoins db.users cid (-1)) cid).map _ = _
        rw [findUser_updateUserCoins_self _ hcompany]
        unfold balanceOf
        rw [hcompany]
        simp
        omega
      · exact ⟨_, rfl, rfl, rfl⟩
  · intro db req f actor hs hd hb hactor hsub
    simp only [createSessionJson]
    rw [if_neg (by simp [hs, hd, hb])]
    simp only [hactor]
    by_cases hrole : actor.role = .EMPLOYEE
    · rw [if_neg (by simp [hrole]), if_pos hsub]
    · rw [if_pos hrole]
  · intro db req f actor cid company hs hd hb hactor hrole hsub hcid hcompany hc
    simp only [createSessionJson]
    rw [if_neg (by simp [hs, hd, hb])]
    simp only [hactor]
    rw [if_neg (by simp [hrole]), if_neg (by simp [hsub])]
    simp only [hcid, hcompany]
    rw [if_pos hc]
  · intro db req db' f h
    rcases createSessionMultipart_cases db req f with ⟨e, heq, hne⟩ |
      ⟨actor, cid, -, -, -, -, -, heq⟩
    · rw [heq] at h
      injection h with h1 h2
      exact absurd h1 hne
    · rw [heq] at h
      injection h with h1 h2
      subst h2
      exact ⟨rfl, rfl, by simp [sessionMultipartCommit],
        by simp [sessionMultipartCommit], by simp [sessionMultipartCommit]⟩
  · intro db req f actor hactor hna
    simp only [createSessionMultipart, hactor]
    rw [if_pos (by tauto)]

/-- Witness for the amended C3: the concrete JSON createSession in `dbSess`
succeeds and debits company account 10 from 5 to 4 coins with the full
bookkeeping. -/
theorem createSession_amended_witness :
    ∃ actor cid,
      findUser dbSess.users reqSess.actorId = some actor ∧
      actor.companyId = some cid ∧
      balanceOf (createSessionJson dbSess reqSess false).2 cid
          = (balanceOf dbSess cid).map (fun b => b - 1) ∧
      (createSessionJson dbSess reqSess false).2.sessions.length
          = dbSess.sessions.length + 1 ∧
      (∃ txn, (createSessionJson dbSess reqSess false).2.coinTransactions
            = dbSess.coinTransactions ++ [txn] ∧
        txn.amount = 1 ∧ txn.reason = some .SESSION_START) ∧
      (createSessionJson dbSess reqSess false).2.activityLogs.length
          = dbSess.activityLogs.length + 1 :=
  createSession_amended.1 dbSess reqSess
    (createSessionJson dbSess reqSess false).2 false (by decide)

/-- C8 counterexample: the JSON createSession handler requires a barcode and
creates a seal together with the session, yet sets the session status to
PENDING — against the claim that a session created with a seal starts
IN_PROGRESS. -/
theorem createSession_status_counterexample :
    (createSessionJson dbSess reqSess false).1 = .ok ∧
    (createSessionJson dbSess reqSess false).2.seals.length = 1 ∧
    ((createSessionJson dbSess reqSess false).2.sessions.map (fun s => s.status))
        = [.PENDING] := by
  decide

/-- C8 amended: both createSession handlers always create a seal with the new
session, and the initial status is fixed per handler rather than derived from
seal presence — the JSON handler always sets PENDING, the multipart handler
always sets IN_PROGRESS. -/
theorem createSession_status_amended :
    (∀ db req db' f, createSessionJson db req f = (.ok, db') →
      ∃ s sl, db'.sessions = db.sessions ++ [s] ∧ db'.seals = db.seals ++ [sl] ∧
        sl.sessionId = s.id ∧ sl.barcode = req.barcode ∧
        s.status = .PENDING) ∧
    (∀ db req db' f, createSessionMultipart db req f = (.ok, db') →
      ∃ s sl, db'.sessions = db.sessions ++ [s] ∧ db'.seals = db.seals ++ [sl] ∧
        sl.sessionId = s.id ∧ s.status = .IN_PROGRESS) := by
  constructor
  · intro db req db' f h
    rcases createSessionJson_cases db req f with ⟨e, heq, hne⟩ |
      ⟨actor, cid, company, sysAdmin, -, -, -, -, -, -, -, -, heq⟩
    · rw [heq] at h
      injection h with h1 h2
      exact absurd h1 hne
    · rw [heq] at h
      injection h with h1 h2
      subst h2
      exact ⟨_, _, rfl, rfl, rfl, rfl, rfl⟩
  · intro db req db' f h
    rcases createSessionMultipart_cases db req f with ⟨e, heq, hne⟩ |
      ⟨actor, cid, -, -, -, -, -, heq⟩
    · rw [heq] at h
      injection h with h1 h2
      exact absurd h1 hne
    · rw [heq] at h
      injection h with h1 h2
      subst h2
      exact ⟨_, _, rfl, rfl, rfl, rfl⟩

/-- Witness for the amended C8: the concrete JSON createSession in `dbSess`
creates its seal and a PENDING session. -/
theorem createSession_status_amended_witness :
    ∃ s sl,
      (createSessionJson dbSess reqSess false).2.sessions
          = dbSess.sessions ++ [s] ∧
      (createSessionJson dbSess reqSess false).2.seals = dbSess.seals ++ [sl] ∧
      sl.sessionId = s.id ∧ sl.barcode = reqSess.barcode ∧
      s.status = .PENDING :=
  createSession_status_amended.1 dbSess reqSess
    (createSessionJson dbSess reqSess false).2 false (by decide)

/-- C4 counterexample: in `dbAlloc`, employee 3 belongs to company 10 whose
COMPANY account (user 2) was created by admin 1 — the claim's company-chain
condition holds, the receiver exists, the amount is positive and the balance
sufficient — yet the code answers Forbidden, because it only accepts
`receiver.createdById = sender.id`; and a request to a nonexistent receiver —
a case outside the claim's permitted set, which the claim says must fail with
Forbidden — answers receiverNotFound instead. -/
theorem allocateCoins_chain_counterexample :
    allocateCoins dbAlloc reqAllocChain false = (.forbidden, dbAlloc) ∧
    (findUser dbAlloc.users 3).map (fun u => (u.role, u.companyId, u.createdById))
        = some (.EMPLOYEE, some 10, some 4) ∧
    (findUser dbAlloc.users 2).map (fun u => (u.role, u.companyId, u.createdById))
        = some (.COMPANY, some 10, some 1) ∧
    (findUser dbAlloc.users 1).map (fun u => (u.role, u.coins))
        = some (.ADMIN, 50) ∧
    allocateCoins dbAlloc reqAllocMissing false = (.receiverNotFound, dbAlloc) ∧
    AllocateOutcome.receiverNotFound ≠ AllocateOutcome.forbidden := by
  decide

/-- C4 amended: `allocateCoins` succeeds only when the sender/receiver pair
passes `allocAuthorized`, which holds exactly when the sender is a SUPERADMIN
and the receiver an ADMIN, or the sender is an ADMIN and the receiver a
COMPANY or EMPLOYEE account directly created by that admin
(`receiver.createdById = sender.id` — the company-chain route is not
accepted); when both accounts exist, the amount is positive and the pair is
not authorized, the call fails with Forbidden; every Forbidden outcome leaves
the store unchanged (no CoinTransaction, no balance change). -/
theorem allocateCoins_amended :
    (∀ db req db' f, allocateCoins db req f = (.ok, db') →
      ∃ sender receiver,
        findUser db.users req.fromUserId = some sender ∧
        findUser db.users req.toUserId = some receiver ∧
        allocAuthorized sender receiver = true) ∧
    (∀ db req f sender receiver,
      0 < req.amount →
      findUser db.users req.fromUserId = some sender →
      findUser db.users req.toUserId = some receiver →
      allocAuthorized sender receiver = false →
      allocateCoins db req f = (.forbidden, db)) ∧
    (∀ db req f, (allocateCoins db req f).1 = .forbidden →
      (allocateCoins db req f).2 = db) ∧
    (∀ sender receiver : User,
      allocAuthorized sender receiver = true ↔
        ((sender.role = .SUPERADMIN ∧ receiver.role = .ADMIN) ∨
         (sender.role = .ADMIN ∧
          (receiver.role = .COMPANY ∨ receiver.role = .EMPLOYEE) ∧
          receiver.createdById = some sender.id))) := by
  refine ⟨?_, ?_, ?_, ?_⟩
  · intro db req db' f h
    rcases allocateCoins_cases db req f with ⟨e, heq, hne, -⟩ |
      ⟨sender, receiver, -, hsend, hrecv, hauth, -, hcase⟩
    · rw [heq] at h
      injection h with h1 h2
      exact absurd h1 hne
    · exact ⟨sender, receiver, hsend, hrecv, hauth⟩
  · intro db req f sender receiver hamt hsend hrecv hauth
    simp only [allocateCoins]
    rw [if_neg (by omega)]
    simp only [hsend, hrecv]
    rw [if_pos (by simp [hauth])]
  · intro db req f h
    rcases allocateCoins_cases db req f with ⟨e, heq, -, -⟩ |
      ⟨sender, receiver, -, -, -, -, -, hcase⟩
    · rw [heq]
    · rcases hcase with ⟨-, heq⟩ | ⟨-, heq⟩ <;> rw [heq] at h <;> simp at h
  · intro sender receiver
    unfold allocAuthorized
    split_ifs with h1 h2 h3 <;> simp_all

/-- Witness for the amended C4: the concrete chain-employee allocation in
`dbAlloc` is refused with Forbidden and leaves the store unchanged. -/
theorem allocateCoins_amended_witness :
    allocateCoins dbAlloc reqAllocChain false = (.forbidden, dbAlloc) :=
  allocateCoins_amended.2.1 dbAlloc reqAllocChain false
    { id := 1, name := "AdminOne", email := "a1@x", password := "p",
      role := .ADMIN, subrole := none, companyId := none,
      coins := 50, createdById := none }
    { id := 3, name := "Emp", email := "e@x", password := "p",
      role := .EMPLOYEE, subrole := some .OPERATOR, companyId := some 10,
      coins := 0, createdById := some 4 }
    (by decide) (by decide) (by decide) (by decide)

/-- C7: in `dbGuard`, user 1 is a GUARD of company 10, and session 100 belongs
to company 20; the guard's `needsVerification=true` query nevertheless returns
session 100, because the GUARD company-scoping block of the handler runs only
when `needsVerification` is false and the needsVerification branch copies only
a caller-supplied companyId filter — so a guard sees other companies'
IN_PROGRESS sessions, against the visibility matrix (and the handler's own
comments). -/
theorem listSessions_guard_cross_company :
    (findUser dbGuard.users 1).map (fun u => (u.role, u.subrole, u.companyId))
        = some (.EMPLOYEE, some .GUARD, some 10) ∧
    listSessionsEmployee dbGuard 1 paramsGuard
        = [{ id := 100, createdAt := 0, createdById := 5, companyId := 20,
             source := "s", destination := "d", status := .IN_PROGRESS }] ∧
    ((listSessionsEmployee dbGuard 1 paramsGuard).map (fun s => s.companyId))
        = [20] := by
  decide

/-- C6 counterexample: in `dbAcct` the actor (user 1) is an ADMIN, yet its
request for a SUPERADMIN account is neither Forbidden nor rejected by the
role gate — the fallback branch creates the SUPERADMIN user, against the
claim that no actor may create an account with a role outside the
authorization matrix. -/
theorem createAccount_superadmin_counterexample :
    (createAccount dbAcct reqAcctSuper false).1 ≠ .forbidden ∧
    (createAccount dbAcct reqAcctSuper false).1 ≠ .unauthorized ∧
    ((createAccount dbAcct reqAcctSuper false).2.users.map (fun u => u.role))
        = [.ADMIN, .SUPERADMIN] ∧
    (findUser dbAcct.users 1).map (fun u => u.role) = some .ADMIN := by
  decide

/-- C6 amended: the enforced part of the matrix holds — a successful
createAccount implies the actor passed the withAuth gate (SUPERADMIN or
ADMIN), role=ADMIN implies a SUPERADMIN actor, and role COMPANY/EMPLOYEE
implies an ADMIN actor; every Forbidden outcome leaves the store unchanged.
But a request for role=SUPERADMIN is not checked at all: any ADMIN actor with
valid fields and a fresh email gets a SUPERADMIN account created by the
fallback branch. -/
theorem createAccount_role_matrix_amended :
    (∀ db req fF r db', createAccount db req fF = (.ok r, db') →
      ∃ actor, findUser db.users req.actorId = some actor ∧
        (actor.role = .SUPERADMIN ∨ actor.role = .ADMIN) ∧
        (req.role = .ADMIN → actor.role = .SUPERADMIN) ∧
        ((req.role = .COMPANY ∨ req.role = .EMPLOYEE) → actor.role = .ADMIN)) ∧
    (∀ db req fF, (createAccount db req fF).1 = .forbidden →
      (createAccount db req fF).2 = db) ∧
    (∀ db req actor,
      findUser db.users req.actorId = some actor →
      actor.role = .ADMIN → req.role = .SUPERADMIN →
      req.name ≠ "" → req.email ≠ "" → req.password ≠ "" →
      db.users.any (fun u => u.email == req.email) = false →
      ∃ u db', createAccount db req false = (.ok (userWithoutPassword u), db') ∧
        u.role = .SUPERADMIN ∧ db'.users = db.users ++ [u]) := by
  refine ⟨?_, ?_, ?_⟩
  · intro db req fF r db' h
    rcases createAccount_shapes db req fF with ⟨e, heq, hnok, -⟩ |
      ⟨-, -, heq⟩ | ⟨actor, u, db'', hactor, hgate, hAdm, hCE, -, -, -, heq, -⟩
    · rw [heq] at h
      injection h with h1 h2
      exact absurd h1 (hnok r)
    · rw [heq] at h
      injection h with h1 h2
      exact CreateAccountOutcome.noConfusion h1
    · exact ⟨actor, hactor, hgate, hAdm, hCE⟩
  · intro db req fF h
    rcases createAccount_shapes db req fF with ⟨e, heq, -, -⟩ |
      ⟨-, -, heq⟩ | ⟨actor, u, db'', -, -, -, -, -, -, -, heq, -⟩
    · rw [heq]
    · rw [heq] at h ⊢
      simp at h
    · rw [heq] at h ⊢
      simp at h
  · intro db req actor hactor hrole hr hn he hp hfresh
    unfold createAccount
    simp only [hactor]
    rw [if_neg (by simp [hrole]), if_neg (by simp [hn, he, hp]),
      if_neg (by simp [hfresh]), if_neg (by simp [hr]), if_neg (by simp [hr]),
      if_neg (by simp [hr]), if_neg (by simp [hr])]
    exact ⟨_, _, rfl, hr, rfl⟩

/-- Witness for the amended C6: the concrete ADMIN actor in `dbAcct` creates
a SUPERADMIN account through the fallback branch. -/
theorem createAccount_role_matrix_amended_witness :
    ∃ u db',
      createAccount dbAcct reqAcctSuper false
          = (.ok (userWithoutPassword u), db') ∧
      u.role = .SUPERADMIN ∧ db'.users = dbAcct.users ++ [u] :=
  createAccount_role_matrix_amended.2.2 dbAcct reqAcctSuper
    { id := 1, name := "AdminOne", email := "a1@x", password := "p",
      role := .ADMIN, subrole := none, companyId := none,
      coins := 0, createdById := none }
    (by decide) rfl rfl (by decide) (by decide) (by decide) (by decide)

/-- C9 counterexample: in `dbAcct` a COMPANY-creation request whose user
insert fails (`userCreateFails = true`) leaves the freshly inserted Company
record behind with no paired account — the two inserts are not one atomic
unit, against the claim that on any failure neither record exists. -/
theorem createAccount_company_orphan_counterexample :
    (createAccount dbAcct reqAcctCompany true).1 = .createFailed ∧
    (createAccount dbAcct reqAcctCompany true).2.companies.length = 1 ∧
    (createAccount dbAcct reqAcctCompany true).2.users = dbAcct.users ∧
    dbAcct.companies = [] := by
  decide

/-- C9 amended: on success for role=COMPANY both the Company record and its
representative account are created and linked (`user.companyId = company.id`);
but the pair is not atomic — when the account insert fails after the company
insert, the Company row persists while no user row is added. -/
theorem createAccount_company_pairing_amended :
    (∀ db req fF r db', req.role = .COMPANY →
      createAccount db req fF = (.ok r, db') →
      ∃ u c, db'.users = db.users ++ [u] ∧
        db'.companies = db.companies ++ [c] ∧
        u.companyId = some c.id ∧ u.role = .COMPANY) ∧
    (∀ db req db', req.role = .COMPANY →
      createAccount db req true = (.createFailed, db') →
      db'.users = db.users ∧
      db'.companies = db.companies ++
        [{ id := freshCompanyId db.companies, name := req.name,
           email := req.email }]) := by
  constructor
  · intro db req fF r db' hrole h
    rcases createAccount_shapes db req fF with ⟨e, heq, hnok, -⟩ |
      ⟨-, -, heq⟩ | ⟨actor, u, db'', -, -, -, -, hur, -, -, heq, hus, -, hco, -⟩
    · rw [heq] at h
      injection h with h1 h2
      exact absurd h1 (hnok r)
    · rw [heq] at h
      injection h with h1 h2
      exact CreateAccountOutcome.noConfusion h1
    · rw [heq] at h
      injection h with h1 h2
      subst h2
      obtain ⟨hco1, hco2⟩ := hco hrole
      exact ⟨u, _, hus, hco1, hco2, by rw [hur, hrole]⟩
  · intro db req db' hrole h
    rcases createAccount_shapes db req true with ⟨e, heq, -, hcf⟩ |
      ⟨-, -, heq⟩ | ⟨actor, u, db'', -, -, -, -, -, -, -, heq, -, -, -, -⟩
    · rw [heq] at h
      injection h with h1 h2
      exact absurd hrole (hcf h1).2
    · rw [heq] at h
      injection h with h1 h2
      subst h2
      exact ⟨rfl, rfl⟩
    · rw [heq] at h
      injection h with h1 h2
      exact CreateAccountOutcome.noConfusion h1

/-- Witness for the amended C9: the concrete successful COMPANY creation in
`dbAcct` yields the linked pair. -/
theorem createAccount_company_pairing_amended_witness :
    ∃ u c,
      (createAccount dbAcct reqAcctCompany false).2.users
          = dbAcct.users ++ [u] ∧
      (createAccount dbAcct reqAcctCompany false).2.companies
          = dbAcct.companies ++ [c] ∧
      u.companyId = some c.id ∧ u.role = .COMPANY :=
  createAccount_company_pairing_amended.1 dbAcct reqAcctCompany false
    (userWithoutPassword
      { id := 2, name := "NewCo", email := "newco@x",
        password := hashPassword "pw", role := .COMPANY, subrole := none,
        companyId := some 0, coins := 0, createdById := some 1 })
    (createAccount dbAcct reqAcctCompany false).2 rfl (by decide)

/-- C10: every successful createAccount call returns a serialized account
object with no "password" key — each branch strips the stored hash via
`const \x7b password: _, ...userWithoutPassword \x7d = user`. -/
theorem createAccount_no_password_leak :
    ∀ db req fF r db', createAccount db req fF = (.ok r, db') →
      "password" ∉ r.map Prod.fst := by
  intro db req fF r db' h
  rcases createAccount_shapes db req fF with ⟨e, heq, hnok, -⟩ |
    ⟨-, -, heq⟩ | ⟨actor, u, db'', -, -, -, -, -, -, -, heq, -, -, -, -⟩
  · rw [heq] at h
    injection h with h1 h2
    exact absurd h1 (hnok r)
  · rw [heq] at h
    injection h with h1 h2
    exact CreateAccountOutcome.noConfusion h1
  · rw [heq] at h
    injection h with h1 h2
    injection h1 with h1
    subst h1
    simp [userWithoutPassword]

/-- Witness for C10: the concrete successful account creation in `dbAcct`
returns an object whose keys do not include "password". -/
theorem createAccount_no_password_leak_witness :
    "password" ∉ (userWithoutPassword
      { id := 2, name := "Eve", email := "eve@x",
        password := hashPassword "pw", role := .SUPERADMIN, subrole := none,
        companyId := none, coins := 0, createdById := some 1 }).map Prod.fst :=
  createAccount_no_password_leak dbAcct reqAcctSuper false _
    (createAccount dbAcct reqAcctSuper false).2 (by decide)

end Cbums
